import Mathlib

/-!
Verification development for the Kanap storefront's cart core
(`front/js/utils.js`, `front/js/product.js`, `front/js/cart.js`).

The JavaScript functions are shallowly embedded as Lean functions.
JavaScript numbers are modelled by the type `JSNum`: an exact rational
value or NaN (every numeric value the program manipulates — integer
quantities and prices such as 5.5 — is exactly representable, and no
operation in scope is sensitive to binary floating-point rounding).
DOM access, `localStorage`, `JSON.parse`/`JSON.stringify` and the
supplied callback functions are external collaborators: they are
modelled as explicit parameters (an `Option String` storage slot, a
parse oracle, a write-success oracle, a handler table), so that every
embedded function stays pure and executable.
-/

namespace Kanap

/-- A JavaScript number: an exact rational value, or NaN. -/
inductive JSNum where
  | num : ℚ → JSNum
  | nan : JSNum
deriving DecidableEq, Repr

/-- JavaScript truthiness of a number: `0`, `-0` and `NaN` are falsy,
every other number is truthy. -/
def JSNum.truthy : JSNum → Bool
  | .num q => q ≠ 0
  | .nan => false

/-- The JavaScript comparison `x <= 0` (false when `x` is NaN). -/
def JSNum.le0 : JSNum → Bool
  | .num q => q ≤ 0
  | .nan => false

/-- The JavaScript comparison `a < b` (false when either side is NaN). -/
def JSNum.lt : JSNum → JSNum → Bool
  | .num a, .num b => a < b
  | _, _ => false

/-- The JavaScript comparison `a > b` (false when either side is NaN). -/
def JSNum.gt : JSNum → JSNum → Bool
  | .num a, .num b => a > b
  | _, _ => false

/-- JavaScript addition: NaN absorbs. -/
def JSNum.add : JSNum → JSNum → JSNum
  | .num a, .num b => .num (a + b)
  | _, _ => .nan

/-- JavaScript subtraction: NaN absorbs. -/
def JSNum.sub : JSNum → JSNum → JSNum
  | .num a, .num b => .num (a - b)
  | _, _ => .nan

/-- JavaScript multiplication: NaN absorbs. -/
def JSNum.mul : JSNum → JSNum → JSNum
  | .num a, .num b => .num (a * b)
  | _, _ => .nan

/-- The JavaScript test `Number.isInteger x` (false for NaN). -/
def JSNum.isInteger : JSNum → Bool
  | .num q => q.den == 1
  | .nan => false

/-- The JavaScript idiom `x || 0`, used to default a falsy number to `0`. -/
def JSNum.or0 (x : JSNum) : JSNum :=
  if x.truthy then x else .num 0

/-- Is this number an actual rational value (not NaN)? -/
def JSNum.isNum : JSNum → Bool
  | .num _ => true
  | .nan => false

/-- The rational value of a number, defaulting NaN to `0`.  Used only to
state theorems about NaN-free carts. -/
def JSNum.toQ : JSNum → ℚ
  | .num q => q
  | .nan => 0

/-- Rendering of a number inside a template string.  Faithful for the
integer attribute values that actually occur; the decimal rendering of a
non-integer rational is approximated by its fraction form (never reached
by any claim). -/
def JSNum.toJSString : JSNum → String
  | .num q => if q.den == 1 then toString q.num else toString q
  | .nan => "NaN"

/-- A catalog product (`types.d.ts` `Product`).  Only the fields the cart
core reads are modelled: `_id` (identity), `price` (aggregation) and
`colors` (validation); the display-only fields (name, image, description)
are elided. -/
structure Product where
  _id : String
  price : JSNum
  colors : List String
deriving DecidableEq, Repr

/-- A cart line item, as produced by `createCartItem` in `utils.js`. -/
structure CartItem where
  productId : String
  color : String
  quantity : JSNum
deriving DecidableEq, Repr

/-- The join of a cart line item with its product (`types.d.ts`
`CartProduct`), as consumed by `computeQuantity` and
`computePriceByQuantity`.  Only the two fields those functions read are
modelled. -/
structure CartProduct where
  price : JSNum
  quantity : JSNum
deriving DecidableEq, Repr

/-- The action kinds returned by `createCartRecord` (`RecordsType` in
`types.d.ts`). -/
inductive RecordsType where
  | insert
  | update
  | remove
deriving DecidableEq, Repr

/-- The `quantity` parameter of `createCartRecord`/`saveToCart`, which in
the source is either a number or a function of the current quantity
(`typeof quantity === 'function'`). -/
inductive QuantityArg where
  | val : JSNum → QuantityArg
  | fn : (JSNum → JSNum) → QuantityArg

/-- utils.js `sum`: `values.reduce((acc, n) => acc + n, 0)`. -/
def sum (values : List JSNum) : JSNum :=
  values.foldl JSNum.add (JSNum.num 0)

/-- utils.js `createCartItem`. -/
def createCartItem (data : Product) (color : String) (quantity : JSNum) : CartItem :=
  { productId := data._id, color := color, quantity := quantity }

/-- The lookup inside `createCartRecord`:
`cart.findIndex(item => item.productId === data._id && item.color === color)`,
as an optional index (the source's `-1` sentinel is recovered in
`createCartRecord`). -/
def cartFindIdx? (cart : List CartItem) (data : Product) (color : String) : Option Nat :=
  cart.findIdx? (fun item => item.productId == data._id && item.color == color)

/-- The source's `item = cart[itemIdx] || null`: the found line item, or
none when `findIndex` returned `-1` (list items are objects, hence always
truthy). -/
def foundItem (cart : List CartItem) (data : Product) (color : String) : Option CartItem :=
  match cartFindIdx? cart data color with
  | some i => cart[i]?
  | none => none

/-- The source's resolution of the quantity intent:
`typeof quantity === 'function' ? quantity((item && item.quantity) || 0) : quantity`. -/
def resolveQuantity (item : Option CartItem) : QuantityArg → JSNum
  | QuantityArg.fn f =>
      f (match item with
         | some it => if it.quantity.truthy then it.quantity else JSNum.num 0
         | none => JSNum.num 0)
  | QuantityArg.val v => v

/-- utils.js `createCartRecord`: decide whether the intent is an insert,
an update or a removal.  The source's guard chain
`if (item && (!quantityValue || quantityValue <= 0)) ... else if (item) ... else ...`
is rendered as a match on the found item followed by the same guard. -/
def createCartRecord (cart : List CartItem) (data : Product) (color : String)
    (quantity : QuantityArg) : RecordsType × Option CartItem × Int :=
  let itemIdx : Int :=
    match cartFindIdx? cart data color with
    | some i => (i : Int)
    | none => -1
  let item : Option CartItem := foundItem cart data color
  let quantityValue : JSNum := resolveQuantity item quantity
  match item with
  | some it =>
      if !quantityValue.truthy || quantityValue.le0 then
        (RecordsType.remove, some it, itemIdx)
      else
        (RecordsType.update, some (createCartItem data it.color quantityValue), itemIdx)
  | none => (RecordsType.insert, some (createCartItem data color quantityValue), itemIdx)

/-- The actual start position of `Array.prototype.splice` for a given
array length and (possibly negative) index argument. -/
def spliceStart (len : Nat) (index : Int) : Nat :=
  (if index < 0 then max ((len : Int) + index) 0 else min index (len : Int)).toNat

/-- The source's `cart.splice(index, 1)`: delete one element at `index`. -/
def spliceRemove (cart : List CartItem) (index : Int) : List CartItem :=
  let start := spliceStart cart.length index
  cart.take start ++ cart.drop (start + 1)

/-- The source's `cart.splice(index, 1, item)`: replace one element at
`index` by `item`. -/
def spliceReplace (cart : List CartItem) (index : Int) (item : CartItem) : List CartItem :=
  let start := spliceStart cart.length index
  cart.take start ++ [item] ++ cart.drop (start + 1)

/-- The `switch (type)` block of `saveToCart` applying a record produced
by `createCartRecord` to the cart (`remove` splices out, `insert` pushes,
`update` splices in place).  `createCartRecord` always returns an item
together with `insert`/`update`; the `none` arms are unreachable and keep
the cart unchanged. -/
def applyCartRecord (cart : List CartItem) :
    RecordsType × Option CartItem × Int → List CartItem
  | (RecordsType.remove, _, index) => spliceRemove cart index
  | (RecordsType.insert, some item, _) => cart ++ [item]
  | (RecordsType.insert, none, _) => cart
  | (RecordsType.update, some item, index) => spliceReplace cart index item
  | (RecordsType.update, none, _) => cart

/-- utils.js `getCartFromStorage`.  The storage slot
`localStorage.getItem('cart')` is the parameter `stored` (`none` for a
missing key); `JSON.parse` is the oracle `parse`, returning `none` when
it would throw.  The source's `|| null` turns the empty string into
`null`, and the `try`/`catch` around `JSON.parse` lands in the `none`
branch. -/
def getCartFromStorage (stored : Option String)
    (parse : String → Option (List CartItem)) : List CartItem :=
  match stored with
  | none => []
  | some data =>
    if data = "" then []
    else
      match parse data with
      | some cart => cart
      | none => []

/-- utils.js `writeCartToStorage`: `localStorage.setItem` either succeeds
or throws (quota, serialization); the external outcome is the oracle
`setItemOk`, and the source's `try`/`catch` converts it to the returned
boolean. -/
def writeCartToStorage (setItemOk : List CartItem → Bool)
    (cart : List CartItem) : Bool :=
  setItemOk cart

/-- The observable outcome of one `saveToCart` call: the cart value
passed to storage, the returned boolean, and which handler (if any) was
invoked, with its argument. -/
structure SaveOutcome where
  written : List CartItem
  success : Bool
  callbackRun : Option (RecordsType × Option CartItem)
deriving Repr

/-- utils.js `saveToCart`: read the cart, reconcile, apply the record,
write back, and on a successful write invoke the handler registered for
the action kind (`handlers[type]`, modelled by the table `handlers`
telling which kinds have a function handler supplied). -/
def saveToCart (stored : Option String) (parse : String → Option (List CartItem))
    (data : Product) (color : String) (quantity : QuantityArg)
    (setItemOk : List CartItem → Bool) (handlers : RecordsType → Bool) : SaveOutcome :=
  let cart := getCartFromStorage stored parse
  let record := createCartRecord cart data color quantity
  let newCart := applyCartRecord cart record
  if writeCartToStorage setItemOk newCart then
    { written := newCart
      success := true
      callbackRun := if handlers record.1 then some (record.1, record.2.1) else none }
  else
    { written := newCart, success := false, callbackRun := none }

/-- utils.js `computeQuantity` (total number of articles).  The
`el.innerText` assignment is a DOM side effect outside the model; the
returned total is kept. -/
def computeQuantity (cart : List CartProduct) : JSNum :=
  sum (cart.map fun item => item.quantity)

/-- utils.js `computePriceByQuantity` (total cart price).  The
`el.innerText` assignment is a DOM side effect outside the model; the
returned total is kept. -/
def computePriceByQuantity (cart : List CartProduct) : JSNum :=
  sum (cart.map fun item => item.price.mul item.quantity)

/-- product.js `ValidationEntryError`: one rule violation.  The optional
DOM element field is elided. -/
structure ValidationEntryError where
  message : String
deriving DecidableEq, Repr

/-- product.js `ValidationError`: the aggregate error carrying every
entry error plus their count. -/
structure ValidationError where
  message : String
  errors : List ValidationEntryError
  nbErrors : Nat
deriving DecidableEq, Repr

/-- The `ValidationError` constructor: pluralize the message when there
are at least two entry errors, record the list and its length. -/
def ValidationError.build (errors : List ValidationEntryError) : ValidationError :=
  { message := "Erreur" ++ (if errors.length ≥ 2 then "s" else "") ++ " de validation"
    errors := errors
    nbErrors := errors.length }

/-- The DOM inputs read by `validateCartInput`: the selected color
(`colorsSelect.value`, the empty string when nothing is selected), the
quantity (`quantityInput.valueAsNumber`, NaN when the field is empty or
invalid) and the `min`/`max` attributes (`none` models the absent or
empty attribute string, which is falsy; a present attribute is modelled
by its numeric coercion, since it is only compared numerically). -/
structure ProductInputEl where
  colorsValue : String
  quantityValueAsNumber : JSNum
  quantityMin : Option JSNum
  quantityMax : Option JSNum

/-- The range error message of `validateCartInput`, a template string
over the two bounds. -/
def rangeMessage (minQuantity maxQuantity : JSNum) : String :=
  "Veuillez choisir une quantité comprise entre " ++ minQuantity.toJSString
    ++ " et " ++ maxQuantity.toJSString

/-- product.js `validateCartInput`: collect the color-rule violation (if
any) and the quantity-rule violation (if any) in push order, then either
return the normalized pair or throw a single `ValidationError` built from
the whole list.  `quantityInput.min || 1` / `quantityInput.max || 1`
default the absent attribute to 1; `colorsSelect.value || null` and
`quantityInput.valueAsNumber || 0` normalize the falsy inputs. -/
def validateCartInput (el : ProductInputEl) (data : Product) :
    Except ValidationError (Option String × JSNum) :=
  let minQuantity := el.quantityMin.getD (JSNum.num 1)
  let maxQuantity := el.quantityMax.getD (JSNum.num 1)
  let color : Option String := if el.colorsValue = "" then none else some el.colorsValue
  let quantity := el.quantityValueAsNumber.or0
  let errors : List ValidationEntryError :=
    (match color with
     | none => [⟨"Veuillez choisir une couleur"⟩]
     | some c => if data.colors.contains c then [] else [⟨"Couleur inconnue"⟩])
    ++
    (if !quantity.isInteger then [⟨"Quantité invalide"⟩]
     else if quantity.lt minQuantity || quantity.gt maxQuantity then
       [⟨rangeMessage minQuantity maxQuantity⟩]
     else [])
  if errors = [] then
    Except.ok (color, quantity)
  else
    Except.error (ValidationError.build errors)

/-- The key that is required to be unique across the cart:
the pair of product id and color. -/
def itemKey (item : CartItem) : String × String :=
  (item.productId, item.color)

/-- Cart invariant: no two line items share a `(productId, color)` pair. -/
def cartKeysNodup (cart : List CartItem) : Prop :=
  (cart.map itemKey).Nodup

/-- Does this quantity hold an actual value that is at least 1? -/
def JSNum.ge1 : JSNum → Bool
  | .num q => 1 ≤ q
  | .nan => false

/-- Cart invariant claimed by the specification: every line item has
quantity at least 1. -/
def cartQuantitiesGE1 (cart : List CartItem) : Prop :=
  ∀ it ∈ cart, it.quantity.ge1 = true

/-- One reconcile-then-apply step: `createCartRecord` followed by the
`switch` application inside `saveToCart`, as a cart-to-cart function. -/
def reconcileStep (cart : List CartItem) (data : Product) (color : String)
    (quantity : QuantityArg) : List CartItem :=
  applyCartRecord cart (createCartRecord cart data color quantity)

/-- A finite sequence of reconcile-then-apply steps. -/
def runSteps (cart : List CartItem) (steps : List (Product × String × QuantityArg)) :
    List CartItem :=
  steps.foldl (fun c step => reconcileStep c step.1 step.2.1 step.2.2) cart

/-- A sample product shared by the concrete evaluations below. -/
def productP : Product :=
  { _id := "p1", price := JSNum.num 10, colors := ["red", "blue"] }

/-- The DOM state of the claim instance for validation: no color selected,
quantity 1.5, bounds min 1 and max 5. -/
def elC4 : ProductInputEl :=
  { colorsValue := ""
    quantityValueAsNumber := JSNum.num 1.5
    quantityMin := some (JSNum.num 1)
    quantityMax := some (JSNum.num 5) }

/-- Specification-side description of the color rules (spec 4.3, rules
1 and 2): the applicable color violation of an input.  Rule 1 (color
required) applies when nothing is selected; rule 2 (color membership)
applies otherwise, so at most one color violation is applicable. -/
def specColorViolations (el : ProductInputEl) (data : Product) : List ValidationEntryError :=
  if el.colorsValue = "" then [⟨"Veuillez choisir une couleur"⟩]
  else if data.colors.contains el.colorsValue then []
  else [⟨"Couleur inconnue"⟩]

/-- Specification-side description of the quantity rules (spec 4.3,
rules 3 and 4): the applicable quantity violation of an input.  Rule 3
(integer quantity) applies first; rule 4 (range) is applicable only to an
integer quantity, so at most one quantity violation is applicable. -/
def specQuantityViolations (el : ProductInputEl) : List ValidationEntryError :=
  let minQuantity := el.quantityMin.getD (JSNum.num 1)
  let maxQuantity := el.quantityMax.getD (JSNum.num 1)
  let quantity := el.quantityValueAsNumber.or0
  if !quantity.isInteger then [⟨"Quantité invalide"⟩]
  else if quantity.lt minQuantity || quantity.gt maxQuantity then
    [⟨rangeMessage minQuantity maxQuantity⟩]
  else []

/-- A second validation input with no selected color and the non-integer
quantity three halves, written in lowest terms so the kernel can evaluate
it. -/
def elC4W : ProductInputEl :=
  { colorsValue := ""
    quantityValueAsNumber := JSNum.num (Rat.mk' 3 2)
    quantityMin := none
    quantityMax := none }

end Kanap

namespace Kanap

/-- When the lookup fails, no item is found. -/
lemma foundItem_of_none {cart : List CartItem} {data : Product} {color : String}
    (h : cartFindIdx? cart data color = none) : foundItem cart data color = none := by
  simp [foundItem, h]

/-- A successful lookup returns an in-range index whose item matches the
requested product id and color. -/
lemma cartFindIdx?_spec {cart : List CartItem} {data : Product} {color : String} {i : Nat}
    (h : cartFindIdx? cart data color = some i) :
    ∃ hlt : i < cart.length, cart[i].productId = data._id ∧ cart[i].color = color := by
  rw [cartFindIdx?, List.findIdx?_eq_some_iff_getElem] at h
  obtain ⟨hlt, hp, -⟩ := h
  simp only [Bool.and_eq_true, beq_iff_eq] at hp
  exact ⟨hlt, hp⟩

/-- When the lookup succeeds, the found item is the list entry at the
returned index. -/
lemma foundItem_of_some {cart : List CartItem} {data : Product} {color : String} {i : Nat}
    (h : cartFindIdx? cart data color = some i) (hlt : i < cart.length) :
    foundItem cart data color = some cart[i] := by
  simp [foundItem, h, List.getElem?_eq_getElem hlt]

/-- Reconciling an absent pair always takes the `insert` branch of
`createCartRecord`, whatever the quantity resolves to. -/
lemma createCartRecord_absent {cart : List CartItem} {data : Product} {color : String}
    (q : QuantityArg) (h : cartFindIdx? cart data color = none) :
    createCartRecord cart data color q =
      (RecordsType.insert, some (createCartItem data color (resolveQuantity none q)), -1) := by
  simp [createCartRecord, foundItem_of_none h, h]

/-- Reconciling a found pair whose resolved quantity fails the guard
takes the `remove` branch of `createCartRecord`. -/
lemma createCartRecord_found_remove {cart : List CartItem} {data : Product} {color : String}
    {q : QuantityArg} {i : Nat}
    (h : cartFindIdx? cart data color = some i)
    (hq : (!(resolveQuantity (foundItem cart data color) q).truthy
           || (resolveQuantity (foundItem cart data color) q).le0) = true) :
    createCartRecord cart data color q =
      (RecordsType.remove, foundItem cart data color, (i : Int)) := by
  obtain ⟨hlt, -, -⟩ := cartFindIdx?_spec h
  rw [createCartRecord]
  rw [foundItem_of_some h hlt] at hq ⊢
  simp [h, hq]

/-- Reconciling a found pair whose resolved quantity passes the guard
takes the `update` branch of `createCartRecord`. -/
lemma createCartRecord_found_update {cart : List CartItem} {data : Product} {color : String}
    {q : QuantityArg} {i : Nat}
    (h : cartFindIdx? cart data color = some i)
    (hq : (!(resolveQuantity (foundItem cart data color) q).truthy
           || (resolveQuantity (foundItem cart data color) q).le0) = false) :
    ∃ hlt : i < cart.length,
      createCartRecord cart data color q =
        (RecordsType.update,
         some (createCartItem data (cart[i].color)
            (resolveQuantity (foundItem cart data color) q)), (i : Int)) := by
  obtain ⟨hlt, -, -⟩ := cartFindIdx?_spec h
  refine ⟨hlt, ?_⟩
  rw [createCartRecord]
  rw [foundItem_of_some h hlt] at hq ⊢
  simp [h, hq]

/-- A nonnegative splice index within range is its own start position. -/
lemma spliceStart_coe {len i : Nat} (hle : i ≤ len) : spliceStart len (i : Int) = i := by
  rw [spliceStart, if_neg (by omega : ¬ (i : Int) < 0)]
  omega

/-- Splicing one element out at an in-range index drops exactly that
element. -/
lemma spliceRemove_coe {cart : List CartItem} {i : Nat} (hlt : i < cart.length) :
    spliceRemove cart (i : Int) = cart.take i ++ cart.drop (i + 1) := by
  rw [spliceRemove, spliceStart_coe (Nat.le_of_lt hlt)]

/-- Splicing one element in at an in-range index replaces exactly that
element. -/
lemma spliceReplace_coe {cart : List CartItem} {i : Nat} (hlt : i < cart.length)
    (item : CartItem) :
    spliceReplace cart (i : Int) item = cart.take i ++ [item] ++ cart.drop (i + 1) := by
  rw [spliceReplace, spliceStart_coe (Nat.le_of_lt hlt)]

/-- One reconcile-then-apply step preserves uniqueness of the
`(productId, color)` keys: an insert only happens for a key absent from
the cart, an update rewrites position `i` with an item of the same key,
and a removal only drops elements. -/
lemma reconcileStep_keys_nodup (cart : List CartItem) (data : Product) (color : String)
    (q : QuantityArg) (h : cartKeysNodup cart) :
    cartKeysNodup (reconcileStep cart data color q) := by
  rw [reconcileStep]
  cases hidx : cartFindIdx? cart data color with
  | none =>
      rw [createCartRecord_absent q hidx]
      show cartKeysNodup (cart ++ [createCartItem data color (resolveQuantity none q)])
      rw [cartKeysNodup, List.map_append, List.nodup_append]
      refine ⟨h, by simp, ?_⟩
      rw [cartFindIdx?, List.findIdx?_eq_none_iff] at hidx
      simp only [List.map_cons, List.map_nil, List.disjoint_singleton]
      intro hmem
      obtain ⟨it, hit, hkey⟩ := List.mem_map.mp hmem
      have hpred := hidx it hit
      simp only [Bool.and_eq_false_iff, beq_eq_false_iff_ne] at hpred
      simp only [itemKey, createCartItem, Prod.mk.injEq] at hkey
      rcases hpred with h1 | h2
      · exact h1 hkey.1
      · exact h2 hkey.2
  | some i =>
      obtain ⟨hlt, hpid, hcol⟩ := cartFindIdx?_spec hidx
      cases hq : (!(resolveQuantity (foundItem cart data color) q).truthy
           || (resolveQuantity (foundItem cart data color) q).le0) with
      | true =>
          rw [createCartRecord_found_remove hidx hq]
          show cartKeysNodup (spliceRemove cart (i : Int))
          rw [cartKeysNodup, spliceRemove_coe hlt, List.map_append, List.map_take, List.map_drop,
            ← List.eraseIdx_eq_take_drop_succ]
          exact List.Nodup.sublist (List.eraseIdx_sublist _ i) h
      | false =>
          obtain ⟨hlt2, heq⟩ := createCartRecord_found_update hidx hq
          rw [heq]
          show cartKeysNodup (spliceReplace cart (i : Int) _)
          rw [cartKeysNodup, spliceReplace_coe hlt, List.map_append, List.map_append,
            List.map_take, List.map_drop]
          have hkey : itemKey (createCartItem data (cart[i].color)
              (resolveQuantity (foundItem cart data color) q)) = itemKey cart[i] := by
            rw [itemKey, itemKey, createCartItem, hpid]
          simp only [List.map_cons, List.map_nil, hkey]
          have hlen : i < (cart.map itemKey).length := by
            rw [List.length_map]; exact hlt
          have hgetmap : (cart.map itemKey)[i] = itemKey cart[i] := by
            rw [List.getElem_map]
          have hsplit : (cart.map itemKey).take i ++ [itemKey cart[i]]
              ++ (cart.map itemKey).drop (i + 1) = cart.map itemKey := by
            rw [← hgetmap, List.append_assoc, List.singleton_append,
              ← List.drop_eq_getElem_cons hlen, List.take_append_drop]
          rw [hsplit]
          exact h

/-- Integrality with a positive value pins a rational at or above 1. -/
lemma rat_one_le_of_den_one_of_pos {q : ℚ} (hden : q.den = 1) (hpos : 0 < q) : 1 ≤ q := by
  have h1 : (q.num : ℚ) = q := (Rat.den_eq_one_iff q).mp hden
  have h2 : 0 < q.num := Rat.num_pos.mpr hpos
  have h3 : (1 : ℤ) ≤ q.num := h2
  calc (1 : ℚ) = ((1 : ℤ) : ℚ) := by norm_num
    _ ≤ ((q.num : ℤ) : ℚ) := by exact_mod_cast h3
    _ = q := h1

/-- An integer quantity that is not `<= 0` is at least 1. -/
lemma ge1_of_int_le0_false {x : JSNum} (hint : x.isInteger = true) (hle : x.le0 = false) :
    x.ge1 = true := by
  cases x with
  | nan => simp [JSNum.isInteger] at hint
  | num q =>
      simp only [JSNum.isInteger, beq_iff_eq] at hint
      simp only [JSNum.le0, decide_eq_false_iff_not, not_le] at hle
      simp only [JSNum.ge1, decide_eq_true_eq]
      exact rat_one_le_of_den_one_of_pos hint hle

/-- Summing a NaN-free list of numbers from a numeric accumulator yields
the rational sum. -/
lemma sum_foldl_num (l : List JSNum) (acc : ℚ) (h : ∀ x ∈ l, x.isNum = true) :
    l.foldl JSNum.add (JSNum.num acc) = JSNum.num (acc + (l.map JSNum.toQ).sum) := by
  induction l generalizing acc with
  | nil => simp
  | cons x xs ih =>
      have hx : x.isNum = true := h x (List.mem_cons_self x xs)
      have hxs : ∀ y ∈ xs, y.isNum = true := fun y hy => h y (List.mem_cons_of_mem x hy)
      cases x with
      | nan => simp [JSNum.isNum] at hx
      | num qx =>
          rw [List.foldl_cons]
          show xs.foldl JSNum.add ((JSNum.num acc).add (JSNum.num qx)) = _
          rw [JSNum.add, ih (acc + qx) hxs]
          rw [List.map_cons, List.sum_cons]
          simp only [JSNum.toQ]
          congr 1
          ring

end Kanap

namespace Kanap

/-- Claim C1, counterexample.  The claim says that reconciling an absent
`(productId, color)` pair with quantity intent 0 yields a `remove` action
that, applied by `saveToCart`, leaves the cart unchanged.  On the empty
cart with product `productP`, color red and quantity 0, the code instead
takes the `insert` branch (the `remove` guard requires a found item), and
`saveToCart` pushes the zero-quantity item, so the written cart is not
the unchanged empty cart. -/
theorem C1_counterexample :
    (createCartRecord [] productP "red" (QuantityArg.val (JSNum.num 0))).1 ≠ RecordsType.remove ∧
    (saveToCart none (fun _ => none) productP "red" (QuantityArg.val (JSNum.num 0))
        (fun _ => true) (fun _ => false)).written ≠ [] := by
  constructor <;> decide

/-- Claim C1, amended.  For every cart and every `(productId, color)`
pair with no matching line item, reconciling with a quantity intent that
resolves to a value at most 0 yields an `insert` action carrying that
non-positive quantity; applying it as `saveToCart` does appends the new
item, so the cart is changed rather than left unchanged. -/
theorem C1_amended_insert_on_absent (cart : List CartItem) (data : Product) (color : String)
    (q : QuantityArg)
    (habsent : cartFindIdx? cart data color = none)
    (hq : (resolveQuantity none q).le0 = true) :
    (createCartRecord cart data color q).1 = RecordsType.insert ∧
    applyCartRecord cart (createCartRecord cart data color q) =
      cart ++ [createCartItem data color (resolveQuantity none q)] := by
  rw [createCartRecord_absent q habsent]
  exact ⟨rfl, rfl⟩

/-- Claim C1 witness: the amended statement evaluated on the empty cart
with quantity intent 0. -/
theorem C1_amended_insert_on_absent_witness :
    (createCartRecord [] productP "red" (QuantityArg.val (JSNum.num 0))).1
      = RecordsType.insert ∧
    applyCartRecord [] (createCartRecord [] productP "red" (QuantityArg.val (JSNum.num 0))) =
      [] ++ [createCartItem productP "red" (resolveQuantity none (QuantityArg.val (JSNum.num 0)))] :=
  C1_amended_insert_on_absent [] productP "red" (QuantityArg.val (JSNum.num 0))
    (by decide) (by decide)

/-- Claim C2, counterexample.  The claim says that applying the
reconciler's action to a cart whose items all have quantity at least 1
again yields such a cart.  The empty cart satisfies the invariant, yet
one reconcile-then-apply step for the absent pair `(productP.id, red)`
with quantity intent 0 inserts a line item of quantity 0, breaking it. -/
theorem C2_counterexample :
    cartQuantitiesGE1 [] ∧
    ¬ cartQuantitiesGE1 (reconcileStep [] productP "red" (QuantityArg.val (JSNum.num 0))) := by
  constructor
  · intro it hmem
    cases hmem
  · intro h
    have hx := h { productId := "p1", color := "red", quantity := JSNum.num 0 } (by decide)
    simp [JSNum.ge1] at hx
    exact absurd hx (by norm_num)

/-- Claim C2, amended.  For every cart whose line items all have quantity
at least 1, one reconcile-then-apply step preserves that invariant,
provided the quantity intent resolves to an integer (the specification
types intents as integer-valued) and, when the `(productId, color)` pair
is absent from the cart, resolves to a positive value.  Without the last
proviso the claim fails: an absent pair with resolved intent at most 0 is
inserted with its non-positive quantity instead of being removed. -/
theorem C2_amended_quantity_invariant (cart : List CartItem) (data : Product) (color : String)
    (q : QuantityArg)
    (hinv : cartQuantitiesGE1 cart)
    (hint : (resolveQuantity (foundItem cart data color) q).isInteger = true)
    (habs : cartFindIdx? cart data color = none →
      (resolveQuantity (foundItem cart data color) q).le0 = false) :
    cartQuantitiesGE1 (reconcileStep cart data color q) := by
  rw [reconcileStep]
  cases hidx : cartFindIdx? cart data color with
  | none =>
      rw [createCartRecord_absent q hidx]
      rw [foundItem_of_none hidx] at hint habs
      show cartQuantitiesGE1 (cart ++ [createCartItem data color (resolveQuantity none q)])
      intro it hmem
      rcases List.mem_append.mp hmem with hmem | hmem
      · exact hinv it hmem
      · rw [List.mem_singleton.mp hmem]
        exact ge1_of_int_le0_false hint (habs hidx)
  | some i =>
      obtain ⟨hlt, -, -⟩ := cartFindIdx?_spec hidx
      cases hq : (!(resolveQuantity (foundItem cart data color) q).truthy
           || (resolveQuantity (foundItem cart data color) q).le0) with
      | true =>
          rw [createCartRecord_found_remove hidx hq]
          show cartQuantitiesGE1 (spliceRemove cart (i : Int))
          rw [spliceRemove_coe hlt]
          intro it hmem
          rcases List.mem_append.mp hmem with hmem | hmem
          · exact hinv it (List.take_subset _ _ hmem)
          · exact hinv it (List.drop_subset _ _ hmem)
      | false =>
          obtain ⟨hlt2, heq⟩ := createCartRecord_found_update hidx hq
          rw [heq]
          show cartQuantitiesGE1 (spliceReplace cart (i : Int) _)
          rw [spliceReplace_coe hlt]
          have hle : (resolveQuantity (foundItem cart data color) q).le0 = false := by
            rcases Bool.or_eq_false_iff.mp hq with ⟨-, h2⟩
            exact h2
          intro it hmem
          rcases List.mem_append.mp hmem with hmem | hmem
          rcases List.mem_append.mp hmem with hmem | hmem
          · exact hinv it (List.take_subset _ _ hmem)
          · rw [List.mem_singleton.mp hmem]
            exact ge1_of_int_le0_false hint hle
          · exact hinv it (List.drop_subset _ _ hmem)

/-- Claim C2 witness: the amended statement evaluated on the empty cart
with the positive integer intent 2. -/
theorem C2_amended_quantity_invariant_witness :
    cartQuantitiesGE1 (reconcileStep [] productP "red" (QuantityArg.val (JSNum.num 2))) :=
  C2_amended_quantity_invariant [] productP "red" (QuantityArg.val (JSNum.num 2))
    (by intro it hmem; cases hmem) (by decide) (fun _ => by decide)

/-- Claim C3: starting from a cart with no duplicate `(productId, color)`
pair, any finite sequence of reconcile-then-apply steps
(`createCartRecord` followed by the insert/update/remove application
performed by `saveToCart`) yields a cart that still has no two line items
with an equal pair. -/
theorem C3_no_duplicate_keys (cart : List CartItem)
    (steps : List (Product × String × QuantityArg))
    (h : cartKeysNodup cart) : cartKeysNodup (runSteps cart steps) := by
  induction steps generalizing cart with
  | nil => exact h
  | cons s rest ih =>
      rw [runSteps, List.foldl_cons]
      exact ih _ (reconcileStep_keys_nodup cart s.1 s.2.1 s.2.2 h)

/-- Claim C3 witness: the theorem evaluated on the empty cart and a
two-step sequence inserting then updating the same pair. -/
theorem C3_no_duplicate_keys_witness :
    cartKeysNodup (runSteps []
      [(productP, "red", QuantityArg.val (JSNum.num 2)),
       (productP, "blue", QuantityArg.val (JSNum.num 1))]) :=
  C3_no_duplicate_keys [] _ (by unfold cartKeysNodup; decide)

/-- The embedded `validateCartInput` agrees, on every input, with the
specification-side aggregation: succeed exactly when no rule violation is
applicable, otherwise throw one error built from the concatenation of the
applicable color and quantity violations. -/
lemma validateCartInput_eq_spec (el : ProductInputEl) (data : Product) :
    validateCartInput el data =
      (if (specColorViolations el data ++ specQuantityViolations el) = []
       then Except.ok ((if el.colorsValue = "" then none else some el.colorsValue),
         el.quantityValueAsNumber.or0)
       else Except.error
         (ValidationError.build (specColorViolations el data ++ specQuantityViolations el))) := by
  rw [validateCartInput, specColorViolations, specQuantityViolations]
  by_cases hc : el.colorsValue = "" <;> simp [hc]

/-- Claim C4: for every input to `validateCartInput`, all applicable rule
violations among missing color, unknown color, non-integer quantity and
out-of-range quantity are collected without short-circuiting and surfaced
together as one aggregate `ValidationError` carrying the full list of
entry errors (color family then quantity family) plus their count, while
an input with no applicable violation succeeds with the normalized pair;
in particular, for no selected color and quantity 1.5 with bounds min 1
and max 5, validation fails with exactly the missing-color and
non-integer entries and count 2. -/
theorem C4_validation_aggregate :
    (∀ (el : ProductInputEl) (data : Product),
        specColorViolations el data ++ specQuantityViolations el ≠ [] →
        validateCartInput el data = Except.error
          (ValidationError.build (specColorViolations el data ++ specQuantityViolations el))) ∧
    (∀ errs : List ValidationEntryError,
        (ValidationError.build errs).errors = errs ∧
        (ValidationError.build errs).nbErrors = errs.length) ∧
    (∀ (el : ProductInputEl) (data : Product),
        specColorViolations el data ++ specQuantityViolations el = [] →
        validateCartInput el data = Except.ok
          ((if el.colorsValue = "" then none else some el.colorsValue),
           el.quantityValueAsNumber.or0)) ∧
    validateCartInput elC4 productP
      = Except.error
          { message := "Erreurs de validation"
            errors := [⟨"Veuillez choisir une couleur"⟩, ⟨"Quantité invalide"⟩]
            nbErrors := 2 } := by
  refine ⟨?_, fun errs => ⟨rfl, rfl⟩, ?_, ?_⟩
  · intro el data h
    rw [validateCartInput_eq_spec, if_neg h]
  · intro el data h
    rw [validateCartInput_eq_spec, if_pos h]
  · have hq15 : (JSNum.num 1.5).or0.isInteger = false := by
      have hor : (JSNum.num 1.5).or0 = JSNum.num 1.5 := by
        rw [JSNum.or0, if_pos]
        rw [JSNum.truthy]
        norm_num
      rw [hor, JSNum.isInteger]
      have hden : (1.5 : ℚ).den = 2 := by norm_num [Rat.den]
      rw [hden]
      rfl
    have hcv : specColorViolations elC4 productP = [⟨"Veuillez choisir une couleur"⟩] := rfl
    have hqv : specQuantityViolations elC4 = [⟨"Quantité invalide"⟩] := by
      simp [specQuantityViolations, elC4, hq15]
    rw [validateCartInput_eq_spec, hcv, hqv]
    simp [ValidationError.build]

/-- Claim C4 witness: the aggregate error statement evaluated at a
concrete input with no selected color and a non-integer quantity. -/
theorem C4_validation_aggregate_witness :
    validateCartInput elC4W productP
      = Except.error (ValidationError.build
          (specColorViolations elC4W productP ++ specQuantityViolations elC4W)) :=
  C4_validation_aggregate.1 elC4W productP (by decide)

/-- Claim C5: `saveToCart` returns true exactly when the storage write of
the reconciled cart succeeded, and the action-kind handler is invoked
exactly on a successful write when a handler for that kind is supplied —
never on a failed write. -/
theorem C5_write_gates_callback (stored : Option String)
    (parse : String → Option (List CartItem)) (data : Product) (color : String)
    (quantity : QuantityArg) (setItemOk : List CartItem → Bool)
    (handlers : RecordsType → Bool) :
    (saveToCart stored parse data color quantity setItemOk handlers).success
      = writeCartToStorage setItemOk
          (saveToCart stored parse data color quantity setItemOk handlers).written
    ∧ (saveToCart stored parse data color quantity setItemOk handlers).callbackRun
      = (if (saveToCart stored parse data color quantity setItemOk handlers).success
            && handlers (createCartRecord (getCartFromStorage stored parse) data color quantity).1
         then some ((createCartRecord (getCartFromStorage stored parse) data color quantity).1,
                    (createCartRecord (getCartFromStorage stored parse) data color quantity).2.1)
         else none) := by
  cases hw : setItemOk (applyCartRecord (getCartFromStorage stored parse)
      (createCartRecord (getCartFromStorage stored parse) data color quantity)) <;>
    simp [saveToCart, writeCartToStorage, hw]

/-- Claim C6: when the cart contains a line item matching
`(product.id, color)` and the quantity intent resolves to a value at most
0, the reconciler produces a `remove` action at that item's existing
position, not an update to a non-positive quantity. -/
theorem C6_update_to_nonpositive_removes (cart : List CartItem) (data : Product)
    (color : String) (q : QuantityArg) (i : Nat)
    (hfound : cartFindIdx? cart data color = some i)
    (hle : (resolveQuantity (foundItem cart data color) q).le0 = true) :
    (createCartRecord cart data color q).1 = RecordsType.remove ∧
    (createCartRecord cart data color q).2.2 = (i : Int) := by
  rw [createCartRecord_found_remove hfound (by rw [hle, Bool.or_true])]
  exact ⟨rfl, rfl⟩

/-- Claim C6 witness: the specification's own instance — the one-item
cart holding `(P.id, red)` with quantity 2 and the decrement-by-5 intent
resolves to -3, so the record is a removal at position 0. -/
theorem C6_update_to_nonpositive_removes_witness :
    (createCartRecord [{ productId := "p1", color := "red", quantity := JSNum.num 2 }]
        productP "red" (QuantityArg.fn (fun n => n.sub (JSNum.num 5)))).1
      = RecordsType.remove ∧
    (createCartRecord [{ productId := "p1", color := "red", quantity := JSNum.num 2 }]
        productP "red" (QuantityArg.fn (fun n => n.sub (JSNum.num 5)))).2.2
      = ((0 : Nat) : Int) := by
  apply C6_update_to_nonpositive_removes
  · decide
  · norm_num [resolveQuantity, foundItem, cartFindIdx?, List.findIdx?_cons, JSNum.sub,
      JSNum.truthy, JSNum.le0, productP]

/-- Claim C7: reconciling the empty cart with product P, color red and
absolute quantity 2 yields an insert of the item (P.id, red, 2); then
reconciling the resulting one-item cart with the add-3 intent yields an
update to quantity 5 at the position of the existing item (index 0). -/
theorem C7_insert_then_update :
    createCartRecord [] productP "red" (QuantityArg.val (JSNum.num 2)) =
      (RecordsType.insert, some { productId := "p1", color := "red", quantity := JSNum.num 2 },
        -1) ∧
    createCartRecord [{ productId := "p1", color := "red", quantity := JSNum.num 2 }]
        productP "red" (QuantityArg.fn (fun n => n.add (JSNum.num 3))) =
      (RecordsType.update, some { productId := "p1", color := "red", quantity := JSNum.num 5 },
        0) := by
  constructor
  · rfl
  · simp [createCartRecord, cartFindIdx?, foundItem, resolveQuantity, createCartItem, productP,
      JSNum.truthy, JSNum.le0, JSNum.add, List.findIdx?_cons]
    norm_num

/-- Claim C8: reading the cart from storage never fails (the embedding is
a total function) and returns the empty cart whenever the stored value is
missing, empty, or rejected by the JSON parser. -/
theorem C8_read_never_fails (stored : Option String)
    (parse : String → Option (List CartItem))
    (h : stored = none ∨ stored = some "" ∨ ∃ s, stored = some s ∧ parse s = none) :
    getCartFromStorage stored parse = [] := by
  rcases h with h | h | ⟨s, hs, hp⟩
  · rw [h]; rfl
  · rw [h]; rfl
  · rw [hs, getCartFromStorage]
    by_cases hse : s = ""
    · simp [hse]
    · simp [hse, hp]

/-- Claim C8 witness: a stored value the parser rejects yields the empty
cart. -/
theorem C8_read_never_fails_witness :
    getCartFromStorage (some "not json") (fun _ => none) = [] :=
  C8_read_never_fails _ _ (Or.inr (Or.inr ⟨"not json", rfl, rfl⟩))

/-- Claim C9: over any NaN-free list of cart-products, `computeQuantity`
is the rational sum of the quantity fields and `computePriceByQuantity`
is the rational sum of price times quantity; on the claim instance with
prices 10 and 5.5 and quantities 2 and 1 the totals are 3 and 25.5. -/
theorem C9_aggregation_totals :
    (∀ cart : List CartProduct,
        (∀ it ∈ cart, it.price.isNum = true ∧ it.quantity.isNum = true) →
        computeQuantity cart = JSNum.num ((cart.map fun it => it.quantity.toQ).sum) ∧
        computePriceByQuantity cart
          = JSNum.num ((cart.map fun it => it.price.toQ * it.quantity.toQ).sum)) ∧
    computeQuantity [⟨JSNum.num 10, JSNum.num 2⟩, ⟨JSNum.num 5.5, JSNum.num 1⟩]
      = JSNum.num 3 ∧
    computePriceByQuantity [⟨JSNum.num 10, JSNum.num 2⟩, ⟨JSNum.num 5.5, JSNum.num 1⟩]
      = JSNum.num 25.5 := by
  refine ⟨?_, ?_, ?_⟩
  · intro cart h
    constructor
    · rw [computeQuantity, sum, sum_foldl_num]
      · rw [List.map_map]
        norm_num
        rfl
      · intro x hx
        obtain ⟨it, hit, hxe⟩ := List.mem_map.mp hx
        rw [← hxe]
        exact (h it hit).2
    · rw [computePriceByQuantity, sum, sum_foldl_num]
      · rw [List.map_map]
        norm_num
        congr 1
        apply List.map_congr_left
        intro it hit
        obtain ⟨h1, h2⟩ := h it hit
        cases hp : it.price with
        | nan => rw [hp] at h1; simp [JSNum.isNum] at h1
        | num p =>
            cases hq : it.quantity with
            | nan => rw [hq] at h2; simp [JSNum.isNum] at h2
            | num qq => simp [JSNum.mul, JSNum.toQ, hp, hq]
      · intro x hx
        obtain ⟨it, hit, hxe⟩ := List.mem_map.mp hx
        obtain ⟨h1, h2⟩ := h it hit
        rw [← hxe]
        cases hp : it.price with
        | nan => rw [hp] at h1; simp [JSNum.isNum] at h1
        | num p =>
            cases hq : it.quantity with
            | nan => rw [hq] at h2; simp [JSNum.isNum] at h2
            | num qq => simp [JSNum.mul, JSNum.isNum]
  · norm_num [computeQuantity, sum, JSNum.add]
  · norm_num [computePriceByQuantity, sum, JSNum.add, JSNum.mul]

/-- Claim C9 witness: the general totals statement evaluated on a
one-item NaN-free cart. -/
theorem C9_aggregation_totals_witness :
    computeQuantity [⟨JSNum.num 3, JSNum.num 4⟩]
      = JSNum.num ((([⟨JSNum.num 3, JSNum.num 4⟩] : List CartProduct).map
          fun it => it.quantity.toQ).sum) :=
  (C9_aggregation_totals.1 _ (by decide)).1

/-- Claim C10: when a matching line item exists and the resolved quantity
intent is any falsy value — including NaN, which the comparisons place
neither at most 0 nor above 0 — the reconciler classifies the action as
`remove`, because the guard tests the falsiness disjunct before the
comparison with 0. -/
theorem C10_falsy_quantity_removes :
    (∀ (cart : List CartItem) (data : Product) (color : String) (q : QuantityArg) (i : Nat),
      cartFindIdx? cart data color = some i →
      (resolveQuantity (foundItem cart data color) q).truthy = false →
      (createCartRecord cart data color q).1 = RecordsType.remove) ∧
    JSNum.nan.truthy = false ∧ JSNum.nan.le0 = false ∧ JSNum.nan.gt (JSNum.num 0) = false := by
  refine ⟨?_, rfl, rfl, rfl⟩
  intro cart data color q i hfound hfalsy
  rw [createCartRecord_found_remove hfound (by rw [hfalsy]; rfl)]

/-- Claim C10 witness: an intent resolving to NaN on a found item gives a
removal. -/
theorem C10_falsy_quantity_removes_witness :
    (createCartRecord [{ productId := "p1", color := "red", quantity := JSNum.num 2 }]
        productP "red" (QuantityArg.fn (fun _ => JSNum.nan))).1 = RecordsType.remove :=
  C10_falsy_quantity_removes.1 _ productP "red" _ 0 (by decide) (by decide)

end Kanap
